import Mathlib

/-!
Shallow embedding of the `mal` crate (Acizza/mal-rs): change-tracked list
values, their XML codec, the enum codecs, and the list orchestrator.
Rust sources embedded here: `src/list/mod.rs`, `src/list/anime.rs`,
`src/list/manga.rs`, `src/util.rs`, `src/error.rs`, `src/lib.rs`.

Machine integers (`u8`, `u32`, `i32`, `i64`) are modelled as `Nat`/`Int`;
the numeric-parse models enforce the corresponding range bounds, and no
embedded operation performs arithmetic that could overflow.  The `f32`
statistics field is kept as its raw wire text (no claim touches it).
-/

/-! ## XML document model (minidom `Element`)

A minidom element has a name and an ordered list of child nodes, each of
which is either a text node or a child element.  The crate only ever builds
and reads flat documents (one level of named children holding text).
-/

inductive XmlNode where
  | text (s : String)
  | elem (name : String) (nodes : List XmlNode)

/-- Element name; `minidom::Element::name()`.  Text nodes have no name. -/
def XmlNode.nodeName : XmlNode → String
  | .text _ => ""
  | .elem n _ => n

def XmlNode.isElem : XmlNode → Bool
  | .text _ => false
  | .elem _ _ => true

/-- `minidom::Element::children()`: the element children, text nodes skipped. -/
def XmlNode.children : XmlNode → List XmlNode
  | .text _ => []
  | .elem _ nodes => nodes.filter (fun n => n.isElem)

/-- `minidom::Element::text()`: concatenated contents of the direct text nodes. -/
def XmlNode.textContent : XmlNode → String
  | .text s => s
  | .elem _ nodes =>
      nodes.foldl (fun acc n => match n with | .text s => acc ++ s | .elem _ _ => acc) ""

/-- `minidom::Element::bare(name)`: an element with no children. -/
def XmlNode.bare (name : String) : XmlNode := .elem name []

/-- `minidom::Element::append_child`. -/
def XmlNode.appendChild : XmlNode → XmlNode → XmlNode
  | .text s, _ => .text s
  | .elem n nodes, child => .elem n (nodes ++ [child])

/-- `minidom::Element::append_text_node`. -/
def XmlNode.appendTextNode : XmlNode → String → XmlNode
  | .text s, _ => .text s
  | .elem n nodes, t => .elem n (nodes ++ [XmlNode.text t])

/-- Serializer model for `Element::write_to` (depth-bounded; the documents the
crate writes are an `entry` element of flat text-bearing children, depth 2). -/
def XmlNode.writeFuel : Nat → XmlNode → String
  | _, .text s => s
  | 0, .elem n _ => "<" ++ n ++ "></" ++ n ++ ">"
  | fuel + 1, .elem n nodes =>
      "<" ++ n ++ ">"
        ++ (nodes.map (XmlNode.writeFuel fuel)).foldl (fun a b => a ++ b) ""
        ++ "</" ++ n ++ ">"

def XmlNode.writeToString (x : XmlNode) : String := XmlNode.writeFuel 8 x

/-! ## Rust standard-library primitives used by the crate -/

/-- Whether `p` is an initial segment of `s` (pattern match test for `str::split`). -/
def listStartsWith : List Char → List Char → Bool
  | [], _ => true
  | _ :: _, [] => false
  | a :: ps, b :: ss => a == b && listStartsWith ps ss

/-- Scanner for `str::split`: non-overlapping, left-to-right matches of `sep`.
Each step consumes at least one character, so `fuel` = input length suffices;
the crate only ever splits on the non-empty separators `"; "` and `","`. -/
def rustSplitAux (sep : List Char) : Nat → List Char → List Char → List String
  | _, [], acc => [String.mk acc.reverse]
  | 0, c :: rest, acc => [String.mk (acc.reverse ++ c :: rest)]
  | fuel + 1, c :: rest, acc =>
      if listStartsWith sep (c :: rest) then
        String.mk acc.reverse :: rustSplitAux sep fuel ((c :: rest).drop sep.length) []
      else
        rustSplitAux sep fuel rest (c :: acc)

/-- `str::split(sep)` collected to a list, for a non-empty separator string. -/
def rustSplit (s sep : String) : List String :=
  rustSplitAux sep.data s.length s.data []

/-- Numeric value of a digit string (most significant first). -/
def charsToNat (cs : List Char) : Nat :=
  cs.foldl (fun a c => a * 10 + (c.toNat - 48)) 0

/-- `str::parse` for an unsigned integer type with maximum value `max`
(`u8`: 255, `u32`: 4294967295): an optional leading `+` sign, then one or
more ASCII digits, rejecting overflow.  Anything else fails. -/
def rustParseUnsigned (max : Nat) (s : String) : Option Nat :=
  let cs := match s.data with
    | '+' :: rest => rest
    | cs => cs
  if cs.isEmpty then none
  else if cs.all (fun c => c.isDigit) then
    let n := charsToNat cs
    if n ≤ max then some n else none
  else none

def rustParseU8 : String → Option Nat := rustParseUnsigned 255

def rustParseU32 : String → Option Nat := rustParseUnsigned 4294967295

/-- `str::parse` for a signed integer type bounded by `|value| ≤ bound`
in the negative direction and `value < bound` in the positive one
(`i32`: bound = 2147483648). -/
def rustParseSigned (bound : Nat) (s : String) : Option Int :=
  match s.data with
  | '-' :: rest =>
    if rest.isEmpty then none
    else if rest.all (fun c => c.isDigit) then
      let n := charsToNat rest
      if n ≤ bound then some (-(n : Int)) else none
    else none
  | _ =>
    match rustParseUnsigned (bound - 1) s with
    | some n => some (n : Int)
    | none => none

def rustParseI32 : String → Option Int := rustParseSigned 2147483648

def rustParseI64 : String → Option Int := rustParseSigned 9223372036854775808

/-- `str::parse::<String>` never fails. -/
def rustParseString (s : String) : Option String := some s

/-- `str::parse::<f32>` model: the numeric value is kept as the raw text, but
the shape of a decimal float literal is checked.  No claim inspects the value. -/
def rustParseF32Raw (s : String) : Option String :=
  let body := match s.data with
    | '+' :: rest => rest
    | '-' :: rest => rest
    | cs => cs
  let parts := rustSplit (String.mk body) "."
  match parts with
  | [intPart] =>
      if intPart.data ≠ [] ∧ intPart.data.all (fun c => c.isDigit) then some s else none
  | [intPart, fracPart] =>
      if (intPart.data ++ fracPart.data) ≠ [] ∧
          intPart.data.all (fun c => c.isDigit) ∧ fracPart.data.all (fun c => c.isDigit)
      then some s else none
  | _ => none

/-! ## chrono model: `NaiveDate`, `%Y-%m-%d` parsing, `%m%d%Y` formatting -/

structure NaiveDate where
  year : Int
  month : Nat
  day : Nat
deriving DecidableEq

def daysInMonth (year : Int) (month : Nat) : Nat :=
  if month = 2 then
    if year % 4 = 0 ∧ (year % 100 ≠ 0 ∨ year % 400 = 0) then 29 else 28
  else if month = 4 ∨ month = 6 ∨ month = 9 ∨ month = 11 then 30
  else 31

/-- Calendar validity plus chrono's representable year range. -/
def NaiveDate.isValid (d : NaiveDate) : Prop :=
  1 ≤ d.month ∧ d.month ≤ 12 ∧ 1 ≤ d.day ∧ d.day ≤ daysInMonth d.year d.month ∧
    -262144 ≤ d.year ∧ d.year ≤ 262143

instance (d : NaiveDate) : Decidable d.isValid := by
  unfold NaiveDate.isValid; infer_instance

/-- Left-pad the decimal rendering of `n` with zeros to `width` characters. -/
def padZeros (width : Nat) (n : Nat) : String :=
  let s := Nat.repr n
  String.mk (List.replicate (width - s.length) '0') ++ s

/-- chrono `%Y` formatting: zero-padded to 4 digits, with an explicit sign
for years outside `0..=9999`. -/
def chronoFormatYearY (y : Int) : String :=
  if y < 0 then "-" ++ padZeros 4 y.natAbs
  else if y ≤ 9999 then padZeros 4 y.toNat
  else "+" ++ Nat.repr y.toNat

/-- chrono `date.format("%m%d%Y")`: zero-padded month, day, then year. -/
def chronoFormatMDY (d : NaiveDate) : String :=
  padZeros 2 d.month ++ padZeros 2 d.day ++ chronoFormatYearY d.year

/-- chrono `NaiveDate::parse_from_str(s, "%Y-%m-%d")` model: three
dash-separated digit groups forming a valid calendar date. -/
def chronoParseYMD (s : String) : Option NaiveDate :=
  match rustSplit s "-" with
  | [ys, ms, ds] =>
    if ys.data ≠ [] ∧ ys.data.all (fun c => c.isDigit) ∧
        ms.data ≠ [] ∧ ms.data.all (fun c => c.isDigit) ∧
        ds.data ≠ [] ∧ ds.data.all (fun c => c.isDigit) then
      let d : NaiveDate :=
        { year := (charsToNat ys.data : Int), month := charsToNat ms.data,
          day := charsToNat ds.data }
      if d.isValid then some d else none
    else none
  | _ => none

/-! ## `src/util.rs` and the shared helpers of `src/list/mod.rs` -/

/-- `util::parse_str_date` (and the identical `list::mod::parse_str_date`):
the all-zero wire sentinel decodes to `None`, anything else is given to the
chrono `%Y-%m-%d` parser, whose failure also yields `None`. -/
def parse_str_date (date : String) : Option NaiveDate :=
  if date ≠ "0000-00-00" then chronoParseYMD date else none

/-- `util::date_to_str` (and the identical `list::mod::date_to_str`):
`None` becomes the all-zero 8-character write sentinel, a set date is
rendered with chrono format string `"%m%d%Y"`. -/
def date_to_str (date : Option NaiveDate) : String :=
  match date with
  | some d => chronoFormatMDY d
  | none => "00000000"

/-- `util::split_into_vec` (and the identical `list::mod::split_by_delim`):
split on the delimiter, then `skip_while(|s| s.is_empty())`, which skips
empty segments only at the front of the iterator. -/
def split_into_vec (string delim : String) : List String :=
  ((rustSplit string delim).map (fun s => s)).dropWhile (fun s => s.isEmpty)

/-- `list::mod::split_by_delim`: same pipeline as `split_into_vec` with the
`map(String::from)` after the `skip_while` instead of before it. -/
def split_by_delim (string delim : String) : List String :=
  ((rustSplit string delim).dropWhile (fun s => s.isEmpty)).map (fun s => s)

/-- `util::concat_by_delimeter` (and `list::mod::concat_by_delim`): map each
tag to `format!("{}{}", tag, delim)` and collect the concatenation. -/
def concat_by_delimeter : List String → Char → String
  | [], _ => ""
  | tag :: rest, delim => (tag ++ delim.toString) ++ concat_by_delimeter rest delim

/-! ## Error taxonomy (`src/error.rs`)

The decode errors raised in `anime.rs` / `manga.rs` travel as `failure::Error`
values in the source; they are represented here as constructors of the one
`ListError` type, carrying the same diagnostic payloads (`AnimeError`,
`MangaValuesError`, `PublishingStatusError`, `SeriesInfoError`,
`util::ParseXMLError` variants included). -/

inductive RequestError where
  | httpError
  | readResponse
  | badResponseCode (status : Nat)
deriving DecidableEq

inductive ListError where
  | io
  | minidom
  | utf8
  | noUserInfoFound
  | unknownStatus (s : String)
  | unknownSeriesType (s : String)
  | missingXMLNode (name : String)
  | xmlConversionFailed (name : String)
  | unknownAirStatus (s : String)
  | unknownWatchStatus (n : Int)
  | unknownReadStatus (n : Int)
  | unknownPublishStatus (s : String)
deriving DecidableEq

inductive MALError where
  | minidom
  | request (e : RequestError)
  | list (e : ListError)
deriving DecidableEq

deriving instance DecidableEq for Except

/-- `util::parse_xml_child`: locate the unique child element named `name`,
take its text content (absent text is the empty string), parse it with the
field type's `FromStr` (passed explicitly here).  Missing child and failed
conversion are the two distinct errors. -/
def parse_xml_child {T : Type} (fromStr : String → Option T)
    (elem : XmlNode) (name : String) : Except ListError T :=
  match elem.children.find? (fun c => c.nodeName == name) with
  | none => .error (.missingXMLNode name)
  | some child =>
    match fromStr child.textContent with
    | none => .error (.xmlConversionFailed name)
    | some v => .ok v

/-- Modelled from the spec: `util::get_xml_child_text` is referenced by
`manga.rs` but its definition is not under `src/`; per §4.3 it locates the
unique child element named `name` and yields its text content, failing with
the missing-node error when no child of that name exists. -/
def get_xml_child_text (elem : XmlNode) (name : String) : Except ListError String :=
  match elem.children.find? (fun c => c.nodeName == name) with
  | none => .error (.missingXMLNode name)
  | some child => .ok child.textContent

/-! ## Enum codecs

Each family keeps the Rust discriminant assignment (`e as i32`) as `as_i32`
and the hard-coded `from_i32` decoding table.  The status families skip
index 5; their `Default` is the plan-to member at index 6. -/

/-- `list::mod::Status` (discriminants 1, 2, 3, 4, 6). -/
inductive Status where
  | watchingOrReading
  | completed
  | onHold
  | dropped
  | planToWatchOrRead
deriving DecidableEq

def Status.as_i32 : Status → Int
  | .watchingOrReading => 1
  | .completed => 2
  | .onHold => 3
  | .dropped => 4
  | .planToWatchOrRead => 6

def Status.from_i32 (value : Int) : Option Status :=
  match value with
  | 1 => some .watchingOrReading
  | 2 => some .completed
  | 3 => some .onHold
  | 4 => some .dropped
  | 6 => some .planToWatchOrRead
  | _ => none

def Status.default : Status := .planToWatchOrRead

/-- `list::anime::WatchStatus` (discriminants 1, 2, 3, 4, 6). -/
inductive WatchStatus where
  | watching
  | completed
  | onHold
  | dropped
  | planToWatch
deriving DecidableEq

def WatchStatus.as_i32 : WatchStatus → Int
  | .watching => 1
  | .completed => 2
  | .onHold => 3
  | .dropped => 4
  | .planToWatch => 6

def WatchStatus.from_i32 (value : Int) : Option WatchStatus :=
  match value with
  | 1 => some .watching
  | 2 => some .completed
  | 3 => some .onHold
  | 4 => some .dropped
  | 6 => some .planToWatch
  | _ => none

def WatchStatus.default : WatchStatus := .planToWatch

/-- `list::manga::ReadStatus` (discriminants 1, 2, 3, 4, 6). -/
inductive ReadStatus where
  | reading
  | completed
  | onHold
  | dropped
  | planToRead
deriving DecidableEq

def ReadStatus.as_i32 : ReadStatus → Int
  | .reading => 1
  | .completed => 2
  | .onHold => 3
  | .dropped => 4
  | .planToRead => 6

def ReadStatus.from_i32 (value : Int) : Option ReadStatus :=
  match value with
  | 1 => some .reading
  | 2 => some .completed
  | 3 => some .onHold
  | 4 => some .dropped
  | 6 => some .planToRead
  | _ => none

def ReadStatus.default : ReadStatus := .planToRead

/-- `AnimeType` (contiguous discriminants 1..5; defined identically in
`lib.rs` and `list/anime.rs`). -/
inductive AnimeType where
  | tv
  | ova
  | movie
  | special
  | ona
deriving DecidableEq

def AnimeType.as_i32 : AnimeType → Int
  | .tv => 1
  | .ova => 2
  | .movie => 3
  | .special => 4
  | .ona => 5

def AnimeType.from_i32 (value : Int) : Option AnimeType :=
  match value with
  | 1 => some .tv
  | 2 => some .ova
  | 3 => some .movie
  | 4 => some .special
  | 5 => some .ona
  | _ => none

/-- `MangaType` (contiguous discriminants 1..6; defined identically in
`lib.rs` and `list/manga.rs`). -/
inductive MangaType where
  | manga
  | novel
  | oneShot
  | doujinshi
  | manhwa
  | manhua
deriving DecidableEq

def MangaType.as_i32 : MangaType → Int
  | .manga => 1
  | .novel => 2
  | .oneShot => 3
  | .doujinshi => 4
  | .manhwa => 5
  | .manhua => 6

def MangaType.from_i32 (value : Int) : Option MangaType :=
  match value with
  | 1 => some .manga
  | 2 => some .novel
  | 3 => some .oneShot
  | 4 => some .doujinshi
  | 5 => some .manhwa
  | 6 => some .manhua
  | _ => none

/-- `list::anime::AiringStatus` (discriminants 1..3). -/
inductive AiringStatus where
  | airing
  | finishedAiring
  | notYetAired
deriving DecidableEq

def AiringStatus.as_i32 : AiringStatus → Int
  | .airing => 1
  | .finishedAiring => 2
  | .notYetAired => 3

def AiringStatus.from_i32 (value : Int) : Option AiringStatus :=
  match value with
  | 1 => some .airing
  | 2 => some .finishedAiring
  | 3 => some .notYetAired
  | _ => none

/-- `list::manga::PublishingStatus` (discriminants 1..3). -/
inductive PublishingStatus where
  | publishing
  | finished
  | notYetPublished
deriving DecidableEq

def PublishingStatus.as_i32 : PublishingStatus → Int
  | .publishing => 1
  | .finished => 2
  | .notYetPublished => 3

def PublishingStatus.from_i32 (value : Int) : Option PublishingStatus :=
  match value with
  | 1 => some .publishing
  | 2 => some .finished
  | 3 => some .notYetPublished
  | _ => none

/-! ## `ChangeTracker<T>` (`src/list/mod.rs`) -/

structure ChangeTracker (T : Type) where
  value : T
  changed : Bool
deriving DecidableEq

/-- `ChangeTracker::new(value)`: the changed flag starts out false. -/
def ChangeTracker.new {T : Type} (value : T) : ChangeTracker T :=
  { value := value, changed := false }

/-- `ChangeTracker::set(value)`: overwrite the value and unconditionally
raise the changed flag; equality with the old value is not checked. -/
def ChangeTracker.set {T : Type} (_self : ChangeTracker T) (value : T) : ChangeTracker T :=
  { value := value, changed := true }

/-- `impl From<T> for ChangeTracker<T>` (used as `.into()` by the parsers):
fields decoded from a list snapshot start out not-changed. -/
def ChangeTracker.ofValue {T : Type} (value : T) : ChangeTracker T :=
  ChangeTracker.new value

/-! ## `AnimeValues` (`src/list/anime.rs`) -/

structure AnimeValues where
  watched_episodes : ChangeTracker Nat
  start_date : ChangeTracker (Option NaiveDate)
  finish_date : ChangeTracker (Option NaiveDate)
  status : ChangeTracker WatchStatus
  score : ChangeTracker Nat
  rewatching : ChangeTracker Bool
  tags : ChangeTracker (List String)
deriving DecidableEq

/-- `AnimeValues::new()` via `#[derive(Default)]`: every tracker holds the
field type's default with the changed flag down; the status default is
`PlanToWatch`. -/
def AnimeValues.new : AnimeValues :=
  { watched_episodes := ChangeTracker.new 0
    start_date := ChangeTracker.new none
    finish_date := ChangeTracker.new none
    status := ChangeTracker.new WatchStatus.default
    score := ChangeTracker.new 0
    rewatching := ChangeTracker.new false
    tags := ChangeTracker.new [] }

/-- `AnimeValues::parse` (list-snapshot decode).  The `my_rewatching` child is
the one field whose parse failure is swallowed to `false` instead of being
propagated. -/
def AnimeValues.parse (xml : XmlNode) : Except ListError AnimeValues := do
  let watched ← parse_xml_child rustParseU32 xml "my_watched_episodes"
  let startText ← parse_xml_child rustParseString xml "my_start_date"
  let finishText ← parse_xml_child rustParseString xml "my_finish_date"
  let statusNum ← parse_xml_child rustParseI32 xml "my_status"
  let status ←
    match WatchStatus.from_i32 statusNum with
    | some s => Except.ok s
    | none => Except.error (ListError.unknownWatchStatus statusNum)
  let score ← parse_xml_child rustParseU8 xml "my_score"
  let rewatching :=
    match parse_xml_child rustParseU8 xml "my_rewatching" with
    | .ok v => v == 1
    | .error _ => false
  let tagsText ← parse_xml_child rustParseString xml "my_tags"
  Except.ok
    { watched_episodes := ChangeTracker.ofValue watched
      start_date := ChangeTracker.ofValue (parse_str_date startText)
      finish_date := ChangeTracker.ofValue (parse_str_date finishText)
      status := ChangeTracker.ofValue status
      score := ChangeTracker.ofValue score
      rewatching := ChangeTracker.ofValue rewatching
      tags := ChangeTracker.ofValue (split_into_vec tagsText ",") }

/-- `AnimeValues::tags` read-only accessor (`&self`): yields the current tag
list; the aggregate is returned unchanged, mirroring the shared borrow. -/
def AnimeValues.tags_read (self : AnimeValues) : List String × AnimeValues :=
  (self.tags.value, self)

/-- `AnimeValues::tags_mut`: acquisition of the mutable reference eagerly
raises the tags changed flag, before any write through it happens. -/
def AnimeValues.tags_mut (self : AnimeValues) : List String × AnimeValues :=
  (self.tags.value, { self with tags := { self.tags with changed := true } })

/-- `EntryValues::add_changed_values` for `AnimeValues`: the emission pattern
of `impl_entryvalues` in `list/mod.rs` (append one bare element with one text
node per changed field) applied to the anime field/wire-tag/formatter list of
`generate_response_xml!` in `anime.rs`. -/
def AnimeValues.add_changed_values (self : AnimeValues) (xml_elem : XmlNode) : XmlNode :=
  let e := xml_elem
  let e := if self.watched_episodes.changed then
      e.appendChild ((XmlNode.bare "episode").appendTextNode
        (Nat.repr self.watched_episodes.value)) else e
  let e := if self.status.changed then
      e.appendChild ((XmlNode.bare "status").appendTextNode
        (toString self.status.value.as_i32)) else e
  let e := if self.start_date.changed then
      e.appendChild ((XmlNode.bare "date_start").appendTextNode
        (date_to_str self.start_date.value)) else e
  let e := if self.finish_date.changed then
      e.appendChild ((XmlNode.bare "date_finish").appendTextNode
        (date_to_str self.finish_date.value)) else e
  let e := if self.score.changed then
      e.appendChild ((XmlNode.bare "score").appendTextNode
        (Nat.repr self.score.value)) else e
  let e := if self.rewatching.changed then
      e.appendChild ((XmlNode.bare "enable_rewatching").appendTextNode
        (if self.rewatching.value then "1" else "0")) else e
  let e := if self.tags.changed then
      e.appendChild ((XmlNode.bare "tags").appendTextNode
        (concat_by_delimeter self.tags.value ',')) else e
  e

/-- `EntryValues::generate_xml` (`list/mod.rs`): one element named `entry`
holding the changed children. -/
def AnimeValues.generate_xml_elem (self : AnimeValues) : XmlNode :=
  self.add_changed_values (XmlNode.bare "entry")

/-- `generate_xml` continued: the document serialized to the request body.
The write and UTF-8 conversion of the source cannot fail on these documents. -/
def AnimeValues.generate_xml (self : AnimeValues) : Except ListError String :=
  Except.ok self.generate_xml_elem.writeToString

/-- `EntryValues::reset_changed_fields` for `AnimeValues`. -/
def AnimeValues.reset_changed_fields (self : AnimeValues) : AnimeValues :=
  { watched_episodes := { self.watched_episodes with changed := false }
    start_date := { self.start_date with changed := false }
    finish_date := { self.finish_date with changed := false }
    status := { self.status with changed := false }
    score := { self.score with changed := false }
    rewatching := { self.rewatching with changed := false }
    tags := { self.tags with changed := false } }

/-! ## `MangaValues` (`src/list/manga.rs`) -/

structure MangaValues where
  chapter : ChangeTracker Nat
  volume : ChangeTracker Nat
  status : ChangeTracker ReadStatus
  score : ChangeTracker Nat
  start_date : ChangeTracker (Option NaiveDate)
  finish_date : ChangeTracker (Option NaiveDate)
  rereading : ChangeTracker Bool
  tags : ChangeTracker (List String)
deriving DecidableEq

/-- `MangaValues::new()` via `#[derive(Default)]`; the status default is
`PlanToRead`. -/
def MangaValues.new : MangaValues :=
  { chapter := ChangeTracker.new 0
    volume := ChangeTracker.new 0
    status := ChangeTracker.new ReadStatus.default
    score := ChangeTracker.new 0
    start_date := ChangeTracker.new none
    finish_date := ChangeTracker.new none
    rereading := ChangeTracker.new false
    tags := ChangeTracker.new [] }

/-- `MangaValues::parse` (list-snapshot decode).  The `my_rereadingg` child
(double-g wire typo) must be present, but its u8 parse failure is swallowed
to `false` instead of being propagated. -/
def MangaValues.parse (xml_elem : XmlNode) : Except ListError MangaValues := do
  let chapter ←
    match get_xml_child_text xml_elem "my_read_chapters" with
    | .ok t => match rustParseU32 t with
      | some n => Except.ok n
      | none => Except.error (ListError.xmlConversionFailed "my_read_chapters")
    | .error e => Except.error e
  let volume ←
    match get_xml_child_text xml_elem "my_read_volumes" with
    | .ok t => match rustParseU32 t with
      | some n => Except.ok n
      | none => Except.error (ListError.xmlConversionFailed "my_read_volumes")
    | .error e => Except.error e
  let statusNum ←
    match get_xml_child_text xml_elem "my_status" with
    | .ok t => match rustParseI32 t with
      | some n => Except.ok n
      | none => Except.error (ListError.xmlConversionFailed "my_status")
    | .error e => Except.error e
  let status ←
    match ReadStatus.from_i32 statusNum with
    | some s => Except.ok s
    | none => Except.error (ListError.unknownReadStatus statusNum)
  let score ←
    match get_xml_child_text xml_elem "my_score" with
    | .ok t => match rustParseU8 t with
      | some n => Except.ok n
      | none => Except.error (ListError.xmlConversionFailed "my_score")
    | .error e => Except.error e
  let startText ← get_xml_child_text xml_elem "my_start_date"
  let finishText ← get_xml_child_text xml_elem "my_finish_date"
  let rereadingText ← get_xml_child_text xml_elem "my_rereadingg"
  let rereading :=
    match rustParseU8 rereadingText with
    | some v => v == 1
    | none => false
  let tagsText ← get_xml_child_text xml_elem "my_tags"
  Except.ok
    { chapter := ChangeTracker.ofValue chapter
      volume := ChangeTracker.ofValue volume
      status := ChangeTracker.ofValue status
      score := ChangeTracker.ofValue score
      start_date := ChangeTracker.ofValue (parse_str_date startText)
      finish_date := ChangeTracker.ofValue (parse_str_date finishText)
      rereading := ChangeTracker.ofValue rereading
      tags := ChangeTracker.ofValue (split_into_vec tagsText ",") }

/-- `MangaValues::tags` read-only accessor (`&self`). -/
def MangaValues.tags_read (self : MangaValues) : List String × MangaValues :=
  (self.tags.value, self)

/-- `MangaValues::tags_mut`: eagerly raises the tags changed flag on
acquisition of the mutable reference. -/
def MangaValues.tags_mut (self : MangaValues) : List String × MangaValues :=
  (self.tags.value, { self with tags := { self.tags with changed := true } })

/-- `EntryValues::add_changed_values` for `MangaValues`, with the manga
field/wire-tag/formatter list of `generate_response_xml!` in `manga.rs`. -/
def MangaValues.add_changed_values (self : MangaValues) (xml_elem : XmlNode) : XmlNode :=
  let e := xml_elem
  let e := if self.chapter.changed then
      e.appendChild ((XmlNode.bare "chapter").appendTextNode
        (Nat.repr self.chapter.value)) else e
  let e := if self.volume.changed then
      e.appendChild ((XmlNode.bare "volume").appendTextNode
        (Nat.repr self.volume.value)) else e
  let e := if self.status.changed then
      e.appendChild ((XmlNode.bare "status").appendTextNode
        (toString self.status.value.as_i32)) else e
  let e := if self.score.changed then
      e.appendChild ((XmlNode.bare "score").appendTextNode
        (Nat.repr self.score.value)) else e
  let e := if self.start_date.changed then
      e.appendChild ((XmlNode.bare "date_start").appendTextNode
        (date_to_str self.start_date.value)) else e
  let e := if self.finish_date.changed then
      e.appendChild ((XmlNode.bare "date_finish").appendTextNode
        (date_to_str self.finish_date.value)) else e
  let e := if self.rereading.changed then
      e.appendChild ((XmlNode.bare "enable_rereading").appendTextNode
        (if self.rereading.value then "1" else "0")) else e
  let e := if self.tags.changed then
      e.appendChild ((XmlNode.bare "tags").appendTextNode
        (concat_by_delimeter self.tags.value ',')) else e
  e

/-- `EntryValues::generate_xml` for `MangaValues`. -/
def MangaValues.generate_xml_elem (self : MangaValues) : XmlNode :=
  self.add_changed_values (XmlNode.bare "entry")

def MangaValues.generate_xml (self : MangaValues) : Except ListError String :=
  Except.ok self.generate_xml_elem.writeToString

/-- `EntryValues::reset_changed_fields` for `MangaValues`. -/
def MangaValues.reset_changed_fields (self : MangaValues) : MangaValues :=
  { chapter := { self.chapter with changed := false }
    volume := { self.volume with changed := false }
    status := { self.status with changed := false }
    score := { self.score with changed := false }
    start_date := { self.start_date with changed := false }
    finish_date := { self.finish_date with changed := false }
    rereading := { self.rereading with changed := false }
    tags := { self.tags with changed := false } }

/-! ## Series info and entries -/

structure AnimeInfo where
  id : Nat
  title : String
  synonyms : List String
  episodes : Nat
  airing_status : AiringStatus
  series_type : AnimeType
  start_date : Option NaiveDate
  end_date : Option NaiveDate
  image_url : String
deriving DecidableEq

/-- `chrono::DateTime<Utc>` is modelled as Unix seconds. -/
structure AnimeEntry where
  series_info : AnimeInfo
  last_updated_time : Int
  values : AnimeValues
deriving DecidableEq

/-- `ListEntry::parse` for `AnimeEntry` (list-snapshot decode of the
`series_*` descriptive prefix, the `my_last_updated` timestamp, and the
user values). -/
def AnimeEntry.parse (xml : XmlNode) : Except ListError AnimeEntry := do
  let id ← parse_xml_child rustParseU32 xml "series_animedb_id"
  let title ← parse_xml_child rustParseString xml "series_title"
  let synonymsText ← parse_xml_child rustParseString xml "series_synonyms"
  let episodes ← parse_xml_child rustParseU32 xml "series_episodes"
  let statusNum ← parse_xml_child rustParseI32 xml "series_status"
  let airingStatus ←
    match AiringStatus.from_i32 statusNum with
    | some s => Except.ok s
    | none => Except.error (ListError.unknownAirStatus (toString statusNum))
  let typeNum ← parse_xml_child rustParseI32 xml "series_type"
  let seriesType ←
    match AnimeType.from_i32 typeNum with
    | some t => Except.ok t
    | none => Except.error (ListError.unknownSeriesType (toString typeNum))
  let startText ← parse_xml_child rustParseString xml "series_start"
  let endText ← parse_xml_child rustParseString xml "series_end"
  let imageUrl ← parse_xml_child rustParseString xml "series_image"
  let lastUpdated ← parse_xml_child rustParseI64 xml "my_last_updated"
  let values ← AnimeValues.parse xml
  Except.ok
    { series_info :=
        { id := id, title := title
          synonyms := split_into_vec synonymsText "; "
          episodes := episodes
          airing_status := airingStatus, series_type := seriesType
          start_date := parse_str_date startText
          end_date := parse_str_date endText
          image_url := imageUrl }
      last_updated_time := lastUpdated
      values := values }

structure MangaInfo where
  id : Nat
  title : String
  synonyms : List String
  series_type : MangaType
  chapters : Nat
  volumes : Nat
  publishing_status : PublishingStatus
  start_date : Option NaiveDate
  end_date : Option NaiveDate
  image_url : String
deriving DecidableEq

structure MangaEntry where
  series_info : MangaInfo
  last_updated_time : Int
  values : MangaValues
deriving DecidableEq

/-- `ListEntry::parse` for `MangaEntry`. -/
def MangaEntry.parse (xml_elem : XmlNode) : Except ListError MangaEntry := do
  let idText ← get_xml_child_text xml_elem "series_mangadb_id"
  let id ←
    match rustParseU32 idText with
    | some n => Except.ok n
    | none => Except.error (ListError.xmlConversionFailed "series_mangadb_id")
  let title ← get_xml_child_text xml_elem "series_title"
  let synonymsText ← get_xml_child_text xml_elem "series_synonyms"
  let typeText ← get_xml_child_text xml_elem "series_type"
  let seriesType ←
    match rustParseI32 typeText with
    | some n =>
      match MangaType.from_i32 n with
      | some t => Except.ok t
      | none => Except.error (ListError.unknownSeriesType typeText)
    | none => Except.error (ListError.xmlConversionFailed "series_type")
  let chaptersText ← get_xml_child_text xml_elem "series_chapters"
  let chapters ←
    match rustParseU32 chaptersText with
    | some n => Except.ok n
    | none => Except.error (ListError.xmlConversionFailed "series_chapters")
  let volumesText ← get_xml_child_text xml_elem "series_volumes"
  let volumes ←
    match rustParseU32 volumesText with
    | some n => Except.ok n
    | none => Except.error (ListError.xmlConversionFailed "series_volumes")
  let statusText ← get_xml_child_text xml_elem "series_status"
  let publishingStatus ←
    match rustParseI32 statusText with
    | some n =>
      match PublishingStatus.from_i32 n with
      | some s => Except.ok s
      | none => Except.error (ListError.unknownPublishStatus statusText)
    | none => Except.error (ListError.xmlConversionFailed "series_status")
  let startText ← get_xml_child_text xml_elem "series_start"
  let endText ← get_xml_child_text xml_elem "series_end"
  let imageUrl ← get_xml_child_text xml_elem "series_image"
  let lastUpdatedText ← get_xml_child_text xml_elem "my_last_updated"
  let lastUpdated ←
    match rustParseI64 lastUpdatedText with
    | some n => Except.ok n
    | none => Except.error (ListError.xmlConversionFailed "my_last_updated")
  let values ← MangaValues.parse xml_elem
  Except.ok
    { series_info :=
        { id := id, title := title
          synonyms := split_into_vec synonymsText "; "
          series_type := seriesType
          chapters := chapters, volumes := volumes
          publishing_status := publishingStatus
          start_date := parse_str_date startText
          end_date := parse_str_date endText
          image_url := imageUrl }
      last_updated_time := lastUpdated
      values := values }

/-! ## User statistics (the aggregate first child of a list snapshot) -/

structure AnimeUserInfo where
  user_id : Nat
  watching : Nat
  completed : Nat
  on_hold : Nat
  dropped : Nat
  plan_to_watch : Nat
  days_spent_watching : String
deriving DecidableEq

/-- `UserInfo::parse` for `AnimeUserInfo` (the f32 field is kept as text). -/
def AnimeUserInfo.parse (xml : XmlNode) : Except ListError AnimeUserInfo := do
  let userId ← parse_xml_child rustParseU32 xml "user_id"
  let watching ← parse_xml_child rustParseU32 xml "user_watching"
  let completed ← parse_xml_child rustParseU32 xml "user_completed"
  let onHold ← parse_xml_child rustParseU32 xml "user_onhold"
  let dropped ← parse_xml_child rustParseU32 xml "user_dropped"
  let planToWatch ← parse_xml_child rustParseU32 xml "user_plantowatch"
  let days ← parse_xml_child rustParseF32Raw xml "user_days_spent_watching"
  Except.ok
    { user_id := userId, watching := watching, completed := completed
      on_hold := onHold, dropped := dropped, plan_to_watch := planToWatch
      days_spent_watching := days }

structure MangaUserInfo where
  user_id : Nat
  reading : Nat
  completed : Nat
  on_hold : Nat
  dropped : Nat
  plan_to_read : Nat
  days_spent_watching : String
deriving DecidableEq

/-- `UserInfo::parse` for `MangaUserInfo`. -/
def MangaUserInfo.parse (xml_elem : XmlNode) : Except ListError MangaUserInfo := do
  let grab := fun (name : String) => do
    let t ← get_xml_child_text xml_elem name
    match rustParseU32 t with
    | some n => Except.ok n
    | none => Except.error (ListError.xmlConversionFailed name)
  let userId ← grab "user_id"
  let reading ← grab "user_reading"
  let completed ← grab "user_completed"
  let onHold ← grab "user_onhold"
  let dropped ← grab "user_dropped"
  let planToRead ← grab "user_plantoread"
  let daysText ← get_xml_child_text xml_elem "user_days_spent_watching"
  let days ←
    match rustParseF32Raw daysText with
    | some d => Except.ok d
    | none => Except.error (ListError.xmlConversionFailed "user_days_spent_watching")
  Except.ok
    { user_id := userId, reading := reading, completed := completed
      on_hold := onHold, dropped := dropped, plan_to_read := planToRead
      days_spent_watching := days }

/-! ## List orchestrator (`List<E>` in `src/list/mod.rs`)

The source struct is called `List`; that name belongs to Lean's core list
type, so the embedding lives in the `MalList` namespace.  The `ListEntry` /
`EntryValues` / `UserInfo` trait dispatch is passed as an explicit record of
capabilities, one instance per category.  The HTTP transport collaborator is
a function from the logical request to either the raw response text or a
`RequestError`; the minidom string-to-document parser is likewise passed in
as an external collaborator. -/

inductive ListType where
  | anime
  | manga
deriving DecidableEq

/-- `request::Request` operations (the body is the serialized entry). -/
inductive MalRequest where
  | list (username : String) (lt : ListType)
  | search (name : String) (lt : ListType)
  | add (id : Nat) (lt : ListType) (body : String)
  | update (id : Nat) (lt : ListType) (body : String)
  | delete (id : Nat) (lt : ListType)
  | verifyCredentials

def Transport : Type := MalRequest → Except RequestError String

/-- The `ListEntry` capability set (trait methods used by `List<E>`),
together with the `EntryValues` and `UserInfo` methods of the associated
types.  `set_last_updated_time` takes the ambient `Utc::now()` explicitly. -/
structure ListEntryOps (E V U : Type) where
  values : E → V
  withValues : E → V → E
  set_last_updated_time : E → Int → E
  id : E → Nat
  list_type : ListType
  from_xml : XmlNode → Except ListError E
  parse_user_info : XmlNode → Except ListError U
  generate_xml : V → Except ListError String
  reset_changed_fields : V → V

/-- `List::add_id`: serialize the dirty fields, send, and reset the changed
flags only after the transport reports success.  The pair carries the final
state of the `&mut values` argument. -/
def MalList.add_id {E V U : Type} (ops : ListEntryOps E V U) (transport : Transport)
    (id : Nat) (values : V) : Except MALError Unit × V :=
  match ops.generate_xml values with
  | .error e => (.error (.list e), values)
  | .ok body =>
    match transport (.add id ops.list_type body) with
    | .error e => (.error (.request e), values)
    | .ok _ => (.ok (), ops.reset_changed_fields values)

/-- `List::update_id`: identical to `add_id` with the update wire verb. -/
def MalList.update_id {E V U : Type} (ops : ListEntryOps E V U) (transport : Transport)
    (id : Nat) (values : V) : Except MALError Unit × V :=
  match ops.generate_xml values with
  | .error e => (.error (.list e), values)
  | .ok body =>
    match transport (.update id ops.list_type body) with
    | .error e => (.error (.request e), values)
    | .ok _ => (.ok (), ops.reset_changed_fields values)

/-- `List::add`: `add_id` on the entry's values, then stamp the sync time;
the `?` propagation means the stamp only happens after success. -/
def MalList.add {E V U : Type} (ops : ListEntryOps E V U) (transport : Transport)
    (now : Int) (entry : E) : Except MALError Unit × E :=
  match MalList.add_id ops transport (ops.id entry) (ops.values entry) with
  | (.error e, values) => (.error e, ops.withValues entry values)
  | (.ok _, values) => (.ok (), ops.set_last_updated_time (ops.withValues entry values) now)

/-- `List::update`: `update_id` on the entry's values, then stamp the sync
time on success only. -/
def MalList.update {E V U : Type} (ops : ListEntryOps E V U) (transport : Transport)
    (now : Int) (entry : E) : Except MALError Unit × E :=
  match MalList.update_id ops transport (ops.id entry) (ops.values entry) with
  | (.error e, values) => (.error e, ops.withValues entry values)
  | (.ok _, values) => (.ok (), ops.set_last_updated_time (ops.withValues entry values) now)

/-- `List::delete_id`: no client-side state to touch. -/
def MalList.delete_id {E V U : Type} (ops : ListEntryOps E V U) (transport : Transport)
    (id : Nat) : Except MALError Unit :=
  match transport (.delete id ops.list_type) with
  | .error e => .error (.request e)
  | .ok _ => .ok ()

/-- Result shape of `List::read` (`ListEntries` in the source). -/
structure ListEntriesResult (U E : Type) where
  user_info : U
  entries : List E
deriving DecidableEq

/-- `List::read`: request the flat list document, parse it, decode the first
top-level child as the aggregate user statistics — its absence is the
distinct `NoUserInfoFound` failure — then decode every subsequent child as
one entry. -/
def MalList.read {E V U : Type} (ops : ListEntryOps E V U) (transport : Transport)
    (minidomParse : String → Except Unit XmlNode) (username : String) :
    Except MALError (ListEntriesResult U E) :=
  match transport (.list username ops.list_type) with
  | .error e => .error (.request e)
  | .ok resp =>
    match minidomParse resp with
    | .error _ => .error .minidom
    | .ok root =>
      match root.children with
      | [] => .error (.list .noUserInfoFound)
      | userElem :: rest =>
        match ops.parse_user_info userElem with
        | .error e => .error (.list e)
        | .ok userInfo =>
          match rest.mapM (fun child =>
              match ops.from_xml child with
              | .error e => Except.error (MALError.list e)
              | .ok entry => Except.ok entry) with
          | .error e => .error e
          | .ok entries => .ok { user_info := userInfo, entries := entries }

/-- The concrete capability record for the anime category. -/
def animeOps : ListEntryOps AnimeEntry AnimeValues AnimeUserInfo :=
  { values := fun e => e.values
    withValues := fun e v => { e with values := v }
    set_last_updated_time := fun e now => { e with last_updated_time := now }
    id := fun e => e.series_info.id
    list_type := .anime
    from_xml := AnimeEntry.parse
    parse_user_info := AnimeUserInfo.parse
    generate_xml := AnimeValues.generate_xml
    reset_changed_fields := AnimeValues.reset_changed_fields }

/-- The concrete capability record for the manga category. -/
def mangaOps : ListEntryOps MangaEntry MangaValues MangaUserInfo :=
  { values := fun e => e.values
    withValues := fun e v => { e with values := v }
    set_last_updated_time := fun e now => { e with last_updated_time := now }
    id := fun e => e.series_info.id
    list_type := .manga
    from_xml := MangaEntry.parse
    parse_user_info := MangaUserInfo.parse
    generate_xml := MangaValues.generate_xml
    reset_changed_fields := MangaValues.reset_changed_fields }

/-! ## Shared sample data and helper lemmas -/

set_option maxRecDepth 10000

def sampleAnimeEntry : AnimeEntry :=
  { series_info :=
      { id := 4224
        title := "Toradora"
        synonyms := []
        episodes := 25
        airing_status := .finishedAiring
        series_type := .tv
        start_date := none
        end_date := none
        image_url := "" }
    last_updated_time := 0
    values := AnimeValues.new }

/-- A list-snapshot fragment whose `my_rewatching` child is present but blank. -/
def sampleAnimeSnapshotXml : XmlNode :=
  .elem "anime" [
    .elem "my_watched_episodes" [.text "5"],
    .elem "my_start_date" [.text "2017-01-05"],
    .elem "my_finish_date" [.text "0000-00-00"],
    .elem "my_status" [.text "1"],
    .elem "my_score" [.text "7"],
    .elem "my_rewatching" [.text ""],
    .elem "my_tags" [.text "a,b"]]

/-- A list-snapshot fragment whose `my_rereadingg` child is present but blank. -/
def sampleMangaSnapshotXml : XmlNode :=
  .elem "manga" [
    .elem "my_read_chapters" [.text "12"],
    .elem "my_read_volumes" [.text "2"],
    .elem "my_status" [.text "1"],
    .elem "my_score" [.text "8"],
    .elem "my_start_date" [.text "2017-01-05"],
    .elem "my_finish_date" [.text "0000-00-00"],
    .elem "my_rereadingg" [.text ""],
    .elem "my_tags" [.text "a,b"]]

lemma padZeros_length (w n : Nat) (h : (Nat.repr n).length ≤ w) :
    (padZeros w n).length = w := by
  unfold padZeros
  rw [String.length_append]
  have hrep : (String.mk (List.replicate (w - (Nat.repr n).length) '0')).length
      = w - (Nat.repr n).length := by
    show (List.replicate (w - (Nat.repr n).length) '0').length = _
    exact List.length_replicate _ _
  omega

lemma daysInMonth_le (y : Int) (m : Nat) : daysInMonth y m ≤ 31 := by
  unfold daysInMonth
  split_ifs <;> omega

/-! ## Claim theorems -/

/-- Claim C2: for every value and every `ChangeTracker`, `new(v)` starts with
the changed flag false (and stores `v`), and `set(x)` always stores `x` and
unconditionally raises the changed flag, with no equality check against the
previous value. -/
theorem change_tracker_new_clean_set_dirty {T : Type} (v x : T) (t : ChangeTracker T) :
    (ChangeTracker.new v).changed = false ∧
    (ChangeTracker.new v).value = v ∧
    (t.set x).changed = true ∧
    (t.set x).value = x :=
  ⟨rfl, rfl, rfl, rfl⟩

/-- Claim C4: in every enum family, decoding the numeric index used for
encoding yields the same member back: `from_i32 (e as i32) = Some(e)`,
including the status families whose index sets skip 5. -/
theorem enum_index_roundtrip :
    (∀ e : Status, Status.from_i32 e.as_i32 = some e) ∧
    (∀ e : WatchStatus, WatchStatus.from_i32 e.as_i32 = some e) ∧
    (∀ e : ReadStatus, ReadStatus.from_i32 e.as_i32 = some e) ∧
    (∀ e : AnimeType, AnimeType.from_i32 e.as_i32 = some e) ∧
    (∀ e : MangaType, MangaType.from_i32 e.as_i32 = some e) ∧
    (∀ e : AiringStatus, AiringStatus.from_i32 e.as_i32 = some e) ∧
    (∀ e : PublishingStatus, PublishingStatus.from_i32 e.as_i32 = some e) := by
  refine ⟨?_, ?_, ?_, ?_, ?_, ?_, ?_⟩ <;> intro e <;> cases e <;> rfl

/-- Claim C9: acquiring `tags_mut()` raises the tags changed flag at
acquisition time while leaving the stored tag list and every other field
untouched, and the read-only `tags()` accessor leaves the whole aggregate,
changed flags included, unchanged — for both `AnimeValues` and
`MangaValues`. -/
theorem tags_mut_eager_dirty_tags_read_pure (a : AnimeValues) (m : MangaValues) :
    (a.tags_mut.2.tags.changed = true ∧
     a.tags_mut.2.tags.value = a.tags.value ∧
     a.tags_mut.2.watched_episodes = a.watched_episodes ∧
     a.tags_mut.2.start_date = a.start_date ∧
     a.tags_mut.2.finish_date = a.finish_date ∧
     a.tags_mut.2.status = a.status ∧
     a.tags_mut.2.score = a.score ∧
     a.tags_mut.2.rewatching = a.rewatching ∧
     a.tags_mut.1 = a.tags.value ∧
     a.tags_read = (a.tags.value, a)) ∧
    (m.tags_mut.2.tags.changed = true ∧
     m.tags_mut.2.tags.value = m.tags.value ∧
     m.tags_mut.2.chapter = m.chapter ∧
     m.tags_mut.2.volume = m.volume ∧
     m.tags_mut.2.status = m.status ∧
     m.tags_mut.2.score = m.score ∧
     m.tags_mut.2.start_date = m.start_date ∧
     m.tags_mut.2.finish_date = m.finish_date ∧
     m.tags_mut.2.rereading = m.rereading ∧
     m.tags_mut.1 = m.tags.value ∧
     m.tags_read = (m.tags.value, m)) :=
  ⟨⟨rfl, rfl, rfl, rfl, rfl, rfl, rfl, rfl, rfl, rfl⟩,
   ⟨rfl, rfl, rfl, rfl, rfl, rfl, rfl, rfl, rfl, rfl, rfl⟩⟩

/-- Claim C10: the serialized tags wire text is the concatenation of each tag
immediately followed by the delimiter, so the empty list yields the empty
string and every non-empty list yields a string ending in the delimiter
(for example `["a", "b"]` with `','` emits `"a,b,"`). -/
theorem concat_appends_trailing_delimiter :
    (∀ delim : Char, concat_by_delimeter [] delim = "") ∧
    (∀ (tag : String) (rest : List String) (delim : Char),
      concat_by_delimeter (tag :: rest) delim =
        (tag ++ delim.toString) ++ concat_by_delimeter rest delim) ∧
    concat_by_delimeter ["a", "b"] ',' = "a,b," ∧
    (∀ (tags : List String) (delim : Char), tags ≠ [] →
      ∃ p, concat_by_delimeter tags delim = p ++ delim.toString) := by
  refine ⟨fun _ => rfl, fun _ _ _ => rfl, by decide, ?_⟩
  intro tags delim h
  induction tags with
  | nil => exact absurd rfl h
  | cons t rest ih =>
    cases rest with
    | nil =>
      refine ⟨t, ?_⟩
      show (t ++ delim.toString) ++ concat_by_delimeter [] delim = _
      rw [show concat_by_delimeter [] delim = "" from rfl, String.append_empty]
    | cons t2 r2 =>
      obtain ⟨p, hp⟩ := ih (by simp)
      refine ⟨(t ++ delim.toString) ++ p, ?_⟩
      show (t ++ delim.toString) ++ concat_by_delimeter (t2 :: r2) delim = _
      rw [hp]
      simp [String.append_assoc]

/-- Witness for C10 at the concrete list `["a"]`. -/
theorem concat_appends_trailing_delimiter_witness :
    ∃ p, concat_by_delimeter ["a"] ',' = p ++ ','.toString :=
  concat_appends_trailing_delimiter.2.2.2 ["a"] ',' (by decide)

/-- Claim C6 fails on the code: splitting `"A; B; "` by `"; "` does NOT give
exactly `["A", "B"]`; the trailing empty segment survives, because the
`skip_while` in `split_into_vec` only skips empty segments at the front. -/
theorem split_trailing_empty_retained_counterexample :
    split_into_vec "A; B; " "; " ≠ ["A", "B"] := by
  decide

/-- Claim C6 amended: splitting drops leading empty segments but retains
interior/trailing ones: `"A; B; "` decodes to `["A", "B", ""]` (both via
`util::split_into_vec` and via `list::mod::split_by_delim`), while a leading
empty segment as in `"; A; B"` is dropped, giving `["A", "B"]`. -/
theorem split_drops_only_leading_empties :
    split_into_vec "A; B; " "; " = ["A", "B", ""] ∧
    split_by_delim "A; B; " "; " = ["A", "B", ""] ∧
    split_into_vec "; A; B" "; " = ["A", "B"] ∧
    split_by_delim "; A; B" "; " = ["A", "B"] := by
  refine ⟨by decide, by decide, by decide, by decide⟩

/-- Claim C5: the date codec special-cases the all-zero sentinel in both
directions — parsing `"0000-00-00"` yields `None`, formatting `None` yields
exactly the 8-character `"00000000"` — and formatting a set date renders it
as `MMDDYYYY` (zero-padded month, day, 4-digit year, 8 characters, no
separators); the 4-digit-year regime `0 ≤ year ≤ 9999` is the one in which
chrono's `%Y` is the plain `YYYY` field. -/
theorem date_sentinel_codec :
    parse_str_date "0000-00-00" = none ∧
    date_to_str none = "00000000" ∧
    (date_to_str none).length = 8 ∧
    (∀ d : NaiveDate, d.isValid → 0 ≤ d.year → d.year ≤ 9999 →
      date_to_str (some d) =
        padZeros 2 d.month ++ padZeros 2 d.day ++ padZeros 4 d.year.toNat ∧
      (date_to_str (some d)).length = 8) := by
  refine ⟨by decide, by decide, by decide, ?_⟩
  intro d hv h0 h9
  have heq : date_to_str (some d) =
      padZeros 2 d.month ++ padZeros 2 d.day ++ padZeros 4 d.year.toNat := by
    show chronoFormatMDY d = _
    unfold chronoFormatMDY chronoFormatYearY
    rw [if_neg (by omega), if_pos h9]
  refine ⟨heq, ?_⟩
  obtain ⟨hm1, hm2, hd1, hd2, _, _⟩ := hv
  have hdm : d.day ≤ 31 := le_trans hd2 (daysInMonth_le d.year d.month)
  have hmlen : (padZeros 2 d.month).length = 2 :=
    padZeros_length 2 d.month (Nat.repr_length d.month 2 (by omega) (by omega))
  have hdlen : (padZeros 2 d.day).length = 2 :=
    padZeros_length 2 d.day (Nat.repr_length d.day 2 (by omega) (by omega))
  have hylen : (padZeros 4 d.year.toNat).length = 4 :=
    padZeros_length 4 d.year.toNat (Nat.repr_length d.year.toNat 4 (by omega) (by omega))
  rw [heq, String.length_append, String.length_append, hmlen, hdlen, hylen]

/-- Witness for C5 at the concrete date 2017-03-05 (formats to `"03052017"`). -/
theorem date_sentinel_codec_witness :
    date_to_str (some { year := 2017, month := 3, day := 5 }) =
      padZeros 2 3 ++ padZeros 2 5 ++ padZeros 4 2017 ∧
    (date_to_str (some { year := 2017, month := 3, day := 5 })).length = 8 :=
  date_sentinel_codec.2.2.2 { year := 2017, month := 3, day := 5 }
    (by decide) (by decide) (by decide)

set_option maxHeartbeats 1600000 in
/-- Claim C1: for both `Values` aggregates, `generate_xml` produces a single
`entry` element whose children are exactly the wire tags of the fields whose
changed flag is true, in the fixed emission order, and no others; with zero
dirty fields the element has no children and with all fields dirty every
wire tag appears. -/
theorem generate_xml_emits_exactly_dirty_fields (a : AnimeValues) (m : MangaValues) :
    (a.generate_xml_elem.nodeName = "entry" ∧
     a.generate_xml_elem.children.map XmlNode.nodeName =
      (if a.watched_episodes.changed then ["episode"] else []) ++
      (if a.status.changed then ["status"] else []) ++
      (if a.start_date.changed then ["date_start"] else []) ++
      (if a.finish_date.changed then ["date_finish"] else []) ++
      (if a.score.changed then ["score"] else []) ++
      (if a.rewatching.changed then ["enable_rewatching"] else []) ++
      (if a.tags.changed then ["tags"] else [])) ∧
    (m.generate_xml_elem.nodeName = "entry" ∧
     m.generate_xml_elem.children.map XmlNode.nodeName =
      (if m.chapter.changed then ["chapter"] else []) ++
      (if m.volume.changed then ["volume"] else []) ++
      (if m.status.changed then ["status"] else []) ++
      (if m.score.changed then ["score"] else []) ++
      (if m.start_date.changed then ["date_start"] else []) ++
      (if m.finish_date.changed then ["date_finish"] else []) ++
      (if m.rereading.changed then ["enable_rereading"] else []) ++
      (if m.tags.changed then ["tags"] else [])) ∧
    AnimeValues.new.generate_xml_elem.children.map XmlNode.nodeName = [] ∧
    MangaValues.new.generate_xml_elem.children.map XmlNode.nodeName = [] ∧
    ({ watched_episodes := ⟨5, true⟩
       start_date := ⟨none, true⟩
       finish_date := ⟨none, true⟩
       status := ⟨.watching, true⟩
       score := ⟨7, true⟩
       rewatching := ⟨true, true⟩
       tags := ⟨["a"], true⟩ } : AnimeValues).generate_xml_elem.children.map XmlNode.nodeName
      = ["episode", "status", "date_start", "date_finish", "score",
         "enable_rewatching", "tags"] ∧
    ({ chapter := ⟨3, true⟩
       volume := ⟨1, true⟩
       status := ⟨.reading, true⟩
       score := ⟨7, true⟩
       start_date := ⟨none, true⟩
       finish_date := ⟨none, true⟩
       rereading := ⟨true, true⟩
       tags := ⟨["a"], true⟩ } : MangaValues).generate_xml_elem.children.map XmlNode.nodeName
      = ["chapter", "volume", "status", "score", "date_start", "date_finish",
         "enable_rereading", "tags"] := by
  refine ⟨?_, ?_, by decide, by decide, by decide, by decide⟩
  · obtain ⟨⟨v1, c1⟩, ⟨v2, c2⟩, ⟨v3, c3⟩, ⟨v4, c4⟩, ⟨v5, c5⟩, ⟨v6, c6⟩, ⟨v7, c7⟩⟩ := a
    cases c1 <;> cases c2 <;> cases c3 <;> cases c4 <;> cases c5 <;> cases c6 <;>
      cases c7 <;> exact ⟨rfl, rfl⟩
  · obtain ⟨⟨w1, d1⟩, ⟨w2, d2⟩, ⟨w3, d3⟩, ⟨w4, d4⟩, ⟨w5, d5⟩, ⟨w6, d6⟩, ⟨w7, d7⟩,
      ⟨w8, d8⟩⟩ := m
    cases d1 <;> cases d2 <;> cases d3 <;> cases d4 <;> cases d5 <;> cases d6 <;>
      cases d7 <;> cases d8 <;> exact ⟨rfl, rfl⟩

/-- Claim C3: for any category's capability record satisfying the structural
identity of Rust's in-place mutation (`withValues e (values e) = e`), if the
transport call made by `add`/`update` fails then the entry — every field's
changed flag and stored value, and the last-updated timestamp — is returned
exactly as it was; the changed flags are reset and the timestamp stamped
precisely when the transport call succeeds. -/
theorem sync_failure_leaves_entry_untouched
    {E V U : Type} (ops : ListEntryOps E V U) (now : Int) (entry : E)
    (heta : ops.withValues entry (ops.values entry) = entry)
    (body : String) (hbody : ops.generate_xml (ops.values entry) = .ok body) :
    (∀ (transport : Transport) (err : RequestError),
        (∀ r, transport r = .error err) →
        MalList.update ops transport now entry = (.error (.request err), entry) ∧
        MalList.add ops transport now entry = (.error (.request err), entry)) ∧
    (∀ (transport : Transport) (resp : String),
        (∀ r, transport r = .ok resp) →
        MalList.update ops transport now entry =
          (.ok (), ops.set_last_updated_time
            (ops.withValues entry (ops.reset_changed_fields (ops.values entry))) now) ∧
        MalList.add ops transport now entry =
          (.ok (), ops.set_last_updated_time
            (ops.withValues entry (ops.reset_changed_fields (ops.values entry))) now)) := by
  constructor
  · intro transport err ht
    constructor <;>
      simp [MalList.update, MalList.add, MalList.update_id, MalList.add_id, hbody, ht, heta]
  · intro transport resp ht
    constructor <;>
      simp [MalList.update, MalList.add, MalList.update_id, MalList.add_id, hbody, ht]

/-- Witness for C3: a concrete anime entry against an always-failing and an
always-succeeding transport. -/
theorem sync_failure_leaves_entry_untouched_witness :
    MalList.update animeOps (fun _ => .error (.badResponseCode 500)) 99 sampleAnimeEntry
      = (.error (.request (.badResponseCode 500)), sampleAnimeEntry) ∧
    MalList.update animeOps (fun _ => .ok "ok") 99 sampleAnimeEntry
      = (.ok (), { sampleAnimeEntry with
          values := AnimeValues.reset_changed_fields sampleAnimeEntry.values
          last_updated_time := 99 }) := by
  have h := sync_failure_leaves_entry_untouched animeOps 99 sampleAnimeEntry rfl
    "<entry></entry>" (by decide)
  exact ⟨(h.1 (fun _ => .error (.badResponseCode 500)) (.badResponseCode 500) (fun r => rfl)).1,
         (h.2 (fun _ => .ok "ok") "ok" (fun r => rfl)).1⟩

/-- Claim C7: when a list-snapshot fragment's rewatching / rereading child
(`my_rewatching` for anime, `my_rereadingg` for manga) is present but its
text fails to parse as a `u8` (for instance when it is blank), decoding still
succeeds — provided every other field decodes — and the flag comes out
`false`; the parse failure of exactly this field is not propagated. -/
theorem re_flag_parse_failure_tolerated :
    (∀ (xml : XmlNode) (w : Nat) (sd fd : String) (st : Int) (ws : WatchStatus)
        (sc : Nat) (tg : String),
      parse_xml_child rustParseU32 xml "my_watched_episodes" = .ok w →
      parse_xml_child rustParseString xml "my_start_date" = .ok sd →
      parse_xml_child rustParseString xml "my_finish_date" = .ok fd →
      parse_xml_child rustParseI32 xml "my_status" = .ok st →
      WatchStatus.from_i32 st = some ws →
      parse_xml_child rustParseU8 xml "my_score" = .ok sc →
      parse_xml_child rustParseU8 xml "my_rewatching" =
        .error (.xmlConversionFailed "my_rewatching") →
      parse_xml_child rustParseString xml "my_tags" = .ok tg →
      ∃ v, AnimeValues.parse xml = .ok v ∧ v.rewatching.value = false ∧
        v.rewatching.changed = false) ∧
    (∀ (xml : XmlNode) (chT voT stT scT sd fd rr tg : String)
        (ch vo sc : Nat) (st : Int) (rs : ReadStatus),
      get_xml_child_text xml "my_read_chapters" = .ok chT →
      rustParseU32 chT = some ch →
      get_xml_child_text xml "my_read_volumes" = .ok voT →
      rustParseU32 voT = some vo →
      get_xml_child_text xml "my_status" = .ok stT →
      rustParseI32 stT = some st →
      ReadStatus.from_i32 st = some rs →
      get_xml_child_text xml "my_score" = .ok scT →
      rustParseU8 scT = some sc →
      get_xml_child_text xml "my_start_date" = .ok sd →
      get_xml_child_text xml "my_finish_date" = .ok fd →
      get_xml_child_text xml "my_rereadingg" = .ok rr →
      rustParseU8 rr = none →
      get_xml_child_text xml "my_tags" = .ok tg →
      ∃ v, MangaValues.parse xml = .ok v ∧ v.rereading.value = false ∧
        v.rereading.changed = false) := by
  constructor
  · intro xml w sd fd st ws sc tg hw hsd hfd hst hws hsc hrw htg
    refine ⟨{ watched_episodes := ChangeTracker.ofValue w
              start_date := ChangeTracker.ofValue (parse_str_date sd)
              finish_date := ChangeTracker.ofValue (parse_str_date fd)
              status := ChangeTracker.ofValue ws
              score := ChangeTracker.ofValue sc
              rewatching := ChangeTracker.ofValue false
              tags := ChangeTracker.ofValue (split_into_vec tg ",") }, ?_, rfl, rfl⟩
    simp [AnimeValues.parse, hw, hsd, hfd, hst, hws, hsc, hrw, htg,
      Except.bind, bind, pure, Except.pure]
  · intro xml chT voT stT scT sd fd rr tg ch vo sc st rs
      h1 h2 h3 h4 h5 h6 h7 h8 h9 h10 h11 h12 h13 h14
    refine ⟨{ chapter := ChangeTracker.ofValue ch
              volume := ChangeTracker.ofValue vo
              status := ChangeTracker.ofValue rs
              score := ChangeTracker.ofValue sc
              start_date := ChangeTracker.ofValue (parse_str_date sd)
              finish_date := ChangeTracker.ofValue (parse_str_date fd)
              rereading := ChangeTracker.ofValue false
              tags := ChangeTracker.ofValue (split_into_vec tg ",") }, ?_, rfl, rfl⟩
    simp [MangaValues.parse, h1, h2, h3, h4, h5, h6, h7, h8, h9, h10, h11, h12, h13, h14,
      Except.bind, bind, pure, Except.pure]

/-- Witness for C7: concrete snapshots whose re-flag children hold the empty
string decode successfully with the flag false, for both categories. -/
theorem re_flag_parse_failure_tolerated_witness :
    (∃ v, AnimeValues.parse sampleAnimeSnapshotXml = .ok v ∧ v.rewatching.value = false ∧
      v.rewatching.changed = false) ∧
    (∃ v, MangaValues.parse sampleMangaSnapshotXml = .ok v ∧ v.rereading.value = false ∧
      v.rereading.changed = false) :=
  ⟨re_flag_parse_failure_tolerated.1 sampleAnimeSnapshotXml 5 "2017-01-05" "0000-00-00"
      1 .watching 7 "a,b" (by decide) (by decide) (by decide) (by decide) (by decide)
      (by decide) (by decide) (by decide),
   re_flag_parse_failure_tolerated.2 sampleMangaSnapshotXml "12" "2" "1" "8"
      "2017-01-05" "0000-00-00" "" "a,b" 12 2 8 1 .reading (by decide) (by decide)
      (by decide) (by decide) (by decide) (by decide) (by decide) (by decide) (by decide)
      (by decide) (by decide) (by decide) (by decide) (by decide)⟩

/-- Claim C8: if the list document's root has no first child, so the
aggregate user-statistics element is absent, `read` returns the
`NoUserInfoFound` error and never a successful result with an empty entry
list. -/
theorem read_missing_user_info_errors
    {E V U : Type} (ops : ListEntryOps E V U) (transport : Transport)
    (minidomParse : String → Except Unit XmlNode) (username : String)
    (resp : String) (root : XmlNode)
    (hresp : transport (.list username ops.list_type) = .ok resp)
    (hroot : minidomParse resp = .ok root)
    (hempty : root.children = []) :
    MalList.read ops transport minidomParse username = .error (.list .noUserInfoFound) ∧
    ∀ result, MalList.read ops transport minidomParse username ≠ .ok result := by
  have h : MalList.read ops transport minidomParse username
      = .error (.list .noUserInfoFound) := by
    simp [MalList.read, hresp, hroot, hempty]
  exact ⟨h, fun result hc => by rw [h] at hc; cases hc⟩

/-- Witness for C8: a concrete empty list document read with the anime
capability record yields `NoUserInfoFound`. -/
theorem read_missing_user_info_errors_witness :
    MalList.read animeOps (fun _ => .ok "<myanimelist></myanimelist>")
      (fun _ => .ok (.elem "myanimelist" [])) "user"
      = .error (.list .noUserInfoFound) :=
  (read_missing_user_info_errors animeOps _ _ "user" "<myanimelist></myanimelist>"
    (.elem "myanimelist" []) rfl rfl rfl).1
